import Mathlib

/-! Shallow embedding of `hypermindz_tools/crewai/rag_search.py`.

Strings are modelled as lists of characters (`Str`), Python `Optional[str]`
as `Option Str` (`none` for Python `None`), and Python truthiness of an
optional string by `truthy`. The HTTP transport (the `requests` library) is
an explicit parameter of `search`: a function from the issued request to an
outcome that is either a response (whose `raise_for_status` behaviour and
JSON body are part of the outcome) or a raised exception, split into
`requests.exceptions.RequestException` and any other exception, mirroring
the two `except` clauses of the source. `search` returns its result string
together with the list of HTTP requests it issued, so that claims about
"exactly one network call" and "no network call" are statable.
-/

/-- Python strings, modelled as lists of characters. -/
abbrev Str := List Char

/-- Python truthiness of an optional string: `None` and `""` are falsy. -/
def truthy : Option Str → Bool
  | none => false
  | some s => !s.isEmpty

/-- Python `a or b` on optional strings: keeps `a` when it is truthy,
otherwise falls back to `b`. -/
def pyOr (a b : Option Str) : Option Str :=
  match a with
  | none => b
  | some s => if s.isEmpty then b else some s

/-- The environment-variable name `HYPERMINDZ_RAG_URL`. -/
def ragUrlVar : Str := "HYPERMINDZ_RAG_URL".data

/-- The environment-variable name `HYPERMINDZ_RAG_API_KEY`. -/
def ragKeyVar : Str := "HYPERMINDZ_RAG_API_KEY".data

/-- The environment-variable name `HYPERMINDZ_BASE_URL` (extended variant). -/
def baseUrlVar : Str := "HYPERMINDZ_BASE_URL".data

/-- The environment-variable name `HYPERMINDZ_DATASET_ID` (extended variant). -/
def datasetIdVar : Str := "HYPERMINDZ_DATASET_ID".data

/-- The validation message for a missing URL (source line 41). -/
def urlMissingMsg : Str :=
  "Error: HYPERMINDZ_RAG_URL not provided or environment variable not set".data

/-- The validation message for a missing API key (source line 43). -/
def keyMissingMsg : Str :=
  "Error: HYPERMINDZ_RAG_API_KEY not provided or environment variable not set".data

/-- The fixed text placed before the underlying message of a caught
`RequestException` (source line 83). -/
def apiErrorPre : Str := "API request error: ".data

/-- The fixed text placed before the underlying message of any other caught
exception (source line 85). -/
def unexpectedPre : Str := "Unexpected error: ".data

/-- The literal returned when the results list is empty (source line 78). -/
def noResultsMsg : Str := "No relevant datasets found.".data

/-- The query parameter key sent with every search. -/
def queryKey : Str := "query".data

/-- The HTTP header name carrying the bearer token. -/
def authHeaderKey : Str := "Authorization".data

/-- The fixed text placed before the API key in the auth header value. -/
def bearerPre : Str := "Bearer ".data

/-- One HTTP GET request as issued by `requests.get` in the source:
positional URL, `params`, `headers` and `timeout` keyword arguments. -/
structure Request where
  url : Str
  params : List (Str × Str)
  headers : List (Str × Str)
  timeout : Nat
deriving DecidableEq

/-- What `response.json()` followed by `.get("results", [])` can do:
raise a non-network exception (malformed body), or produce a parsed object
whose `results` field is present (`some`) or absent (`none`). Each result
entry is modelled by its text representation. -/
inductive JsonOutcome where
  | decodeError (m : Str)
  | dict (results : Option (List Str))
deriving DecidableEq

/-- An HTTP response as seen by the source: whether `raise_for_status`
passes (2xx), the message of the `HTTPError` it raises otherwise, and the
JSON body outcome. -/
structure Response where
  status_ok : Bool
  err_msg : Str
  body : JsonOutcome
deriving DecidableEq

/-- The possible outcomes of the `requests.get` call itself: a response, a
raised `requests.exceptions.RequestException`, or any other raised
exception. -/
inductive HttpOutcome where
  | response (r : Response)
  | raiseRequest (m : Str)
  | raiseOther (m : Str)
deriving DecidableEq

/-- The client state: `self.api_url` and `self.api_key` (source lines
31-32). -/
structure HypermindzRAGSearchTool where
  api_url : Option Str
  api_key : Option Str
deriving DecidableEq

/-- The constructor: each field is the explicit argument `or` the
corresponding environment variable (source lines 31-32). -/
def HypermindzRAGSearchTool.init (api_url api_key : Option Str)
    (env : Str → Option Str) : HypermindzRAGSearchTool :=
  { api_url := pyOr api_url (env ragUrlVar)
    api_key := pyOr api_key (env ragKeyVar) }

/-- `validate_config` (source lines 34-45): URL checked first, API key
second, `(true, "")` when both are truthy. -/
def HypermindzRAGSearchTool.validate_config (t : HypermindzRAGSearchTool) :
    Bool × Str :=
  if truthy t.api_url = false then (false, urlMissingMsg)
  else if truthy t.api_key = false then (false, keyMissingMsg)
  else (true, [])

/-- The request `search` builds (source lines 64-72): the resolved URL,
params `{"query": query_text}`, header `Authorization: Bearer <key>`, and
the given timeout. -/
def HypermindzRAGSearchTool.request (t : HypermindzRAGSearchTool)
    (query_text : Str) (timeout : Nat) : Request :=
  { url := t.api_url.getD []
    params := [(queryKey, query_text)]
    headers := [(authHeaderKey, bearerPre ++ t.api_key.getD [])]
    timeout := timeout }

/-- The separator `", "` that Python `str` places between list elements. -/
def sepStr : Str := ", ".data

/-- The text between the brackets of Python `str` applied to a list: the
text representations of the elements joined by `", "`. -/
def joinStrs : List Str → Str
  | [] => []
  | [x] => x
  | x :: xs => x ++ sepStr ++ joinStrs xs

/-- Python `str` applied to a non-empty list of results (source line 80):
brackets around the joined text representations of the elements. -/
def strOfList (rs : List Str) : Str := ('[' :: []) ++ joinStrs rs ++ (']' :: [])

/-- `search` (source lines 47-85), instrumented with the list of HTTP
requests issued. Early return of the validation message on invalid config;
otherwise one GET whose outcome is mapped exactly as the try/except
chain of the source maps it. -/
def HypermindzRAGSearchTool.search (t : HypermindzRAGSearchTool)
    (transport : Request → HttpOutcome) (query_text : Str) (timeout : Nat) :
    Str × List Request :=
  match t.validate_config with
  | (false, error_msg) => (error_msg, [])
  | (true, _) =>
      let req := t.request query_text timeout
      let result : Str :=
        match transport req with
        | .raiseRequest m => apiErrorPre ++ m
        | .raiseOther m => unexpectedPre ++ m
        | .response r =>
            if r.status_ok = false then apiErrorPre ++ r.err_msg
            else
              match r.body with
              | .decodeError m => unexpectedPre ++ m
              | .dict results =>
                  let rs := results.getD []
                  if rs.isEmpty then noResultsMsg
                  else strOfList rs
      (result, [req])

/-- The Python default value of the `timeout` parameter of `search`. -/
def defaultTimeout : Nat := 30

/-- `search` called without an explicit timeout, as the Python default
argument does. -/
def HypermindzRAGSearchTool.searchD (t : HypermindzRAGSearchTool)
    (transport : Request → HttpOutcome) (query_text : Str) :
    Str × List Request :=
  t.search transport query_text defaultTimeout

/-- The agent-callable wrapper (source lines 117-118): constructs one
client from the environment and forwards the query text to its `search`. -/
def hypermindz_rag_search (env : Str → Option Str)
    (transport : Request → HttpOutcome) (query_text : Str) :
    Str × List Request :=
  (HypermindzRAGSearchTool.init none none env).searchD transport query_text

/-- The fixed path appended to the base URL in the extended variant. -/
def searchPath : Str := "/search".data

/-- The extended-variant validation message for a missing base URL.
Modelled from the spec: the message names `HYPERMINDZ_BASE_URL`. -/
def baseUrlMissingMsg : Str :=
  "Error: HYPERMINDZ_BASE_URL not provided or environment variable not set".data

/-- The extended-variant validation message for a missing dataset id.
Modelled from the spec: the message names `HYPERMINDZ_DATASET_ID`. -/
def datasetMissingMsg : Str :=
  "Error: HYPERMINDZ_DATASET_ID not provided or environment variable not set".data

/-- Modelled from the spec: the extended-variant client (base URL plus a
fixed `/search` path and a dataset id), whose implementation is not under
`src/` — only its tests appear there. Construction resolves each field
from the explicit argument falling back to `HYPERMINDZ_BASE_URL`,
`HYPERMINDZ_RAG_API_KEY` and `HYPERMINDZ_DATASET_ID`. -/
structure ExtendedTool where
  base_url : Option Str
  api_key : Option Str
  dataset_id : Option Str
deriving DecidableEq

/-- Modelled from the spec: the extended-variant constructor, explicit
arguments falling back to the environment variables. -/
def ExtendedTool.init (base_url api_key dataset_id : Option Str)
    (env : Str → Option Str) : ExtendedTool :=
  { base_url := pyOr base_url (env baseUrlVar)
    api_key := pyOr api_key (env ragKeyVar)
    dataset_id := pyOr dataset_id (env datasetIdVar) }

/-- Modelled from the spec: the extended variant composes the request URL
from the base URL and the fixed `/search` path. -/
def ExtendedTool.api_url (t : ExtendedTool) : Option Str :=
  t.base_url.map (fun b => b ++ searchPath)

/-- Modelled from the spec: extended-variant `validateConfiguration`, the
required fields checked in a fixed order (base URL first, API key second,
dataset id third), returning the first missing-field message, and
`(true, "")` when all three are truthy. -/
def ExtendedTool.validate_config (t : ExtendedTool) : Bool × Str :=
  if truthy t.base_url = false then (false, baseUrlMissingMsg)
  else if truthy t.api_key = false then (false, keyMissingMsg)
  else if truthy t.dataset_id = false then (false, datasetMissingMsg)
  else (true, [])

/-- The query parameter key carrying the dataset id (extended variant). -/
def idKey : Str := "id".data

/-- Modelled from the spec: the request the extended variant sends — the
composed URL, params `{"query": query_text, "id": dataset_id}`, the same
bearer header, and the given timeout. -/
def ExtendedTool.request (t : ExtendedTool) (query_text : Str)
    (timeout : Nat) : Request :=
  { url := t.api_url.getD []
    params := [(queryKey, query_text), (idKey, t.dataset_id.getD [])]
    headers := [(authHeaderKey, bearerPre ++ t.api_key.getD [])]
    timeout := timeout }

/-- Modelled from the spec: extended-variant `search`, identical to the
base variant except for the request it sends. -/
def ExtendedTool.search (t : ExtendedTool)
    (transport : Request → HttpOutcome) (query_text : Str) (timeout : Nat) :
    Str × List Request :=
  match t.validate_config with
  | (false, error_msg) => (error_msg, [])
  | (true, _) =>
      let req := t.request query_text timeout
      let result : Str :=
        match transport req with
        | .raiseRequest m => apiErrorPre ++ m
        | .raiseOther m => unexpectedPre ++ m
        | .response r =>
            if r.status_ok = false then apiErrorPre ++ r.err_msg
            else
              match r.body with
              | .decodeError m => unexpectedPre ++ m
              | .dict results =>
                  let rs := results.getD []
                  if rs.isEmpty then noResultsMsg
                  else strOfList rs
      (result, [req])

/-- Modelled from the spec: extended-variant `search` with the default
timeout. -/
def ExtendedTool.searchD (t : ExtendedTool)
    (transport : Request → HttpOutcome) (query_text : Str) :
    Str × List Request :=
  t.search transport query_text defaultTimeout

/-- Substring containment: `sub` occurs contiguously inside `s`. -/
def isSub (sub s : Str) : Prop := ∃ a b, s = a ++ sub ++ b

/-- Occurrence counts do not grow when passing to a substring; used to
refute substring containment on concrete strings. -/
theorem isSub_count_le (c : Char) {sub s : Str} (h : isSub sub s) :
    sub.count c ≤ s.count c := by
  obtain ⟨a, b, rfl⟩ := h
  simp only [List.count_append]
  omega

/-- Every member of a list of strings occurs inside their join. -/
theorem isSub_joinStrs {x : Str} : ∀ {rs : List Str}, x ∈ rs →
    isSub x (joinStrs rs) := by
  intro rs
  induction rs with
  | nil => intro h; cases h
  | cons y ys ih =>
      intro h
      rcases List.mem_cons.mp h with rfl | hmem
      · cases ys with
        | nil => exact ⟨[], [], by simp [joinStrs]⟩
        | cons z zs => exact ⟨[], sepStr ++ joinStrs (z :: zs), by simp [joinStrs]⟩
      · obtain ⟨a, b, hab⟩ := ih hmem
        cases ys with
        | nil => cases hmem
        | cons z zs =>
            refine ⟨y ++ sepStr ++ a, b, ?_⟩
            simp [joinStrs, hab]

/-- Every member of a list of strings occurs inside the Python rendering of
the list. -/
theorem isSub_strOfList {x : Str} {rs : List Str} (h : x ∈ rs) :
    isSub x (strOfList rs) := by
  obtain ⟨a, b, hab⟩ := isSub_joinStrs h
  exact ⟨('[' :: []) ++ a, b ++ (']' :: []), by simp [strOfList, hab]⟩

/-- A concrete query used to instantiate the theorems below. -/
def qStr : Str := "test query".data

/-- A concrete endpoint URL. -/
def uStr : Str := "https://test.com".data

/-- A concrete API key. -/
def kStr : Str := "test-key".data

/-- A concrete dataset id. -/
def dStr : Str := "test-dataset".data

/-- A concrete non-network failure message. -/
def boomStr : Str := "boom".data

/-- A concrete network failure message. -/
def connStr : Str := "Connection error".data

/-- A concrete result entry. -/
def aStr : Str := "result1".data

/-- A concrete result entry. -/
def bStr : Str := "result2".data

/-- A concrete result entry. -/
def cStr : Str := "result3".data

/-- A fully configured base-variant client. -/
def t0 : HypermindzRAGSearchTool := ⟨some uStr, some kStr⟩

/-- A fully configured extended-variant client. -/
def T0 : ExtendedTool := ⟨some uStr, some kStr, some dStr⟩

/-- A transport that raises a generic (non-network) exception. -/
def trOther : Request → HttpOutcome := fun _ => HttpOutcome.raiseOther boomStr

/-- A transport that raises a network-layer exception. -/
def trNet : Request → HttpOutcome := fun _ => HttpOutcome.raiseRequest connStr

/-- A transport that answers 2xx with `{"results": []}`. -/
def trEmpty : Request → HttpOutcome :=
  fun _ => HttpOutcome.response ⟨true, [], JsonOutcome.dict (some [])⟩

/-- A transport that answers 2xx with three results. -/
def trABC : Request → HttpOutcome :=
  fun _ => HttpOutcome.response ⟨true, [], JsonOutcome.dict (some [aStr, bStr, cStr])⟩

/-- C3: on a configuration that fails validation, `search` returns the
validation error message verbatim and issues no HTTP request. -/
theorem search_invalid_config_short_circuits
    (t : HypermindzRAGSearchTool) (transport : Request → HttpOutcome)
    (q : Str) (tmo : Nat) (h : t.validate_config.1 = false) :
    t.search transport q tmo = (t.validate_config.2, []) := by
  cases hvc : t.validate_config with
  | mk b m =>
      rw [hvc] at h
      cases b with
      | false => simp [HypermindzRAGSearchTool.search, hvc]
      | true => simp at h

/-- C3 witness: the unconfigured client returns the URL validation message
and issues no request. -/
theorem search_invalid_config_short_circuits_witness :
    HypermindzRAGSearchTool.search ⟨none, none⟩ trEmpty qStr 30 =
      ((HypermindzRAGSearchTool.validate_config ⟨none, none⟩).2, []) :=
  search_invalid_config_short_circuits ⟨none, none⟩ trEmpty qStr 30 (by decide)

/-- C4: `validate_config` checks the URL first and the API key second,
returns the first missing-field message — which names the environment
variable that would have supplied the field — and returns `(true, "")`
exactly when both required fields are present (truthy). -/
theorem validate_config_field_order_and_messages (t : HypermindzRAGSearchTool) :
    (t.validate_config = (true, []) ↔
      truthy t.api_url = true ∧ truthy t.api_key = true)
    ∧ (truthy t.api_url = false →
        t.validate_config = (false, urlMissingMsg) ∧ isSub ragUrlVar urlMissingMsg)
    ∧ (truthy t.api_url = true → truthy t.api_key = false →
        t.validate_config = (false, keyMissingMsg) ∧ isSub ragKeyVar keyMissingMsg) := by
  have hu : isSub ragUrlVar urlMissingMsg :=
    ⟨"Error: ".data, " not provided or environment variable not set".data, by decide⟩
  have hk : isSub ragKeyVar keyMissingMsg :=
    ⟨"Error: ".data, " not provided or environment variable not set".data, by decide⟩
  cases hA : truthy t.api_url <;> cases hB : truthy t.api_key <;>
    simp [HypermindzRAGSearchTool.validate_config, hA, hB, hu, hk]

/-- C1: `search` is a total function into strings (no exception escapes —
totality is the type of the embedding), and any failure that is not a
network-layer failure (a generic exception raised by the transport, or a
malformed JSON body on a 2xx response) yields exactly the text
`"Unexpected error: "` followed by the underlying failure message. -/
theorem search_unexpected_error_contract
    (t : HypermindzRAGSearchTool) (transport : Request → HttpOutcome)
    (q : Str) (tmo : Nat) (m : Str)
    (hv : t.validate_config.1 = true)
    (h : transport (t.request q tmo) = HttpOutcome.raiseOther m ∨
         ∃ r : Response, transport (t.request q tmo) = HttpOutcome.response r ∧
           r.status_ok = true ∧ r.body = JsonOutcome.decodeError m) :
    (t.search transport q tmo).1 = unexpectedPre ++ m := by
  cases hvc : t.validate_config with
  | mk b msg =>
      rw [hvc] at hv
      cases b with
      | false => simp at hv
      | true =>
          rcases h with h | ⟨r, hr, hok, hb⟩
          · simp [HypermindzRAGSearchTool.search, hvc, h]
          · simp [HypermindzRAGSearchTool.search, hvc, hr, hok, hb]

/-- C1 witness: a generic transport failure with message `"boom"` comes
back as `"Unexpected error: boom"`. -/
theorem search_unexpected_error_contract_witness :
    (t0.search trOther qStr 30).1 = unexpectedPre ++ boomStr :=
  search_unexpected_error_contract t0 trOther qStr 30 boomStr (by decide)
    (Or.inl rfl)

/-- C5: any network-layer failure — a raised `RequestException`, or a
non-2xx status turned into a raised `HTTPError` by `raise_for_status` —
yields exactly the text `"API request error: "` followed by the underlying
failure message. -/
theorem search_api_request_error_contract
    (t : HypermindzRAGSearchTool) (transport : Request → HttpOutcome)
    (q : Str) (tmo : Nat) (m : Str)
    (hv : t.validate_config.1 = true)
    (h : transport (t.request q tmo) = HttpOutcome.raiseRequest m ∨
         ∃ r : Response, transport (t.request q tmo) = HttpOutcome.response r ∧
           r.status_ok = false ∧ r.err_msg = m) :
    (t.search transport q tmo).1 = apiErrorPre ++ m := by
  cases hvc : t.validate_config with
  | mk b msg =>
      rw [hvc] at hv
      cases b with
      | false => simp at hv
      | true =>
          rcases h with h | ⟨r, hr, hok, herr⟩
          · simp [HypermindzRAGSearchTool.search, hvc, h]
          · simp [HypermindzRAGSearchTool.search, hvc, hr, hok, herr]

/-- C5 witness: a raised network failure with message `"Connection error"`
comes back as `"API request error: Connection error"`. -/
theorem search_api_request_error_contract_witness :
    (t0.search trNet qStr 30).1 = apiErrorPre ++ connStr :=
  search_api_request_error_contract t0 trNet qStr 30 connStr (by decide)
    (Or.inl rfl)

/-- C6: on a 2xx response whose parsed `results` field is absent or the
empty list, `search` returns exactly the literal
`"No relevant datasets found."`. -/
theorem search_empty_results_literal
    (t : HypermindzRAGSearchTool) (transport : Request → HttpOutcome)
    (q : Str) (tmo : Nat) (r : Response) (results : Option (List Str))
    (hv : t.validate_config.1 = true)
    (hr : transport (t.request q tmo) = HttpOutcome.response r)
    (hok : r.status_ok = true)
    (hb : r.body = JsonOutcome.dict results)
    (hempty : results.getD [] = []) :
    (t.search transport q tmo).1 = noResultsMsg := by
  cases hvc : t.validate_config with
  | mk b msg =>
      rw [hvc] at hv
      cases b with
      | false => simp at hv
      | true => simp [HypermindzRAGSearchTool.search, hvc, hr, hok, hb, hempty]

/-- C6 witness: a 2xx response with `{"results": []}` yields the fixed
literal. -/
theorem search_empty_results_literal_witness :
    (t0.search trEmpty qStr 30).1 = noResultsMsg :=
  search_empty_results_literal t0 trEmpty qStr 30
    ⟨true, [], JsonOutcome.dict (some [])⟩ (some []) (by decide) rfl rfl rfl rfl

/-- C7: on a 2xx response whose `results` list is non-empty, the string
`search` returns contains the text representation of every individual
result as a substring. -/
theorem search_renders_each_result
    (t : HypermindzRAGSearchTool) (transport : Request → HttpOutcome)
    (q : Str) (tmo : Nat) (r : Response) (rs : List Str) (x : Str)
    (hv : t.validate_config.1 = true)
    (hr : transport (t.request q tmo) = HttpOutcome.response r)
    (hok : r.status_ok = true)
    (hb : r.body = JsonOutcome.dict (some rs))
    (hx : x ∈ rs) :
    isSub x ((t.search transport q tmo).1) := by
  have hne : rs.isEmpty = false := by
    cases rs with
    | nil => cases hx
    | cons y ys => rfl
  cases hvc : t.validate_config with
  | mk b msg =>
      rw [hvc] at hv
      cases b with
      | false => simp at hv
      | true =>
          simp [HypermindzRAGSearchTool.search, hvc, hr, hok, hb, hne]
          exact isSub_strOfList hx

/-- C7 witness: with results `["result1", "result2", "result3"]`, the
returned string contains `"result2"`. -/
theorem search_renders_each_result_witness :
    isSub bStr ((t0.search trABC qStr 30).1) :=
  search_renders_each_result t0 trABC qStr 30
    ⟨true, [], JsonOutcome.dict (some [aStr, bStr, cStr])⟩
    [aStr, bStr, cStr] bStr (by decide) rfl rfl rfl (by decide)

/-- C2: on a valid configuration `search` issues exactly one GET — its
request log is the one built request, whatever the transport answers — and
that request carries the resolved URL, params `{"query": q}` (with
`{"id": dataset_id}` appended in the extended variant), the header
`Authorization: Bearer <key>`, and the given timeout, whose Python default
is 30. -/
theorem search_single_get_request_shape
    (t : HypermindzRAGSearchTool) (T : ExtendedTool)
    (tr tr2 : Request → HttpOutcome) (q : Str) (tmo : Nat)
    (hv : t.validate_config.1 = true) (hV : T.validate_config.1 = true) :
    (t.search tr q tmo).2 = [t.request q tmo]
    ∧ t.request q tmo =
        { url := t.api_url.getD []
          params := [(queryKey, q)]
          headers := [(authHeaderKey, bearerPre ++ t.api_key.getD [])]
          timeout := tmo }
    ∧ t.searchD tr q = t.search tr q 30
    ∧ defaultTimeout = 30
    ∧ (T.search tr2 q tmo).2 = [T.request q tmo]
    ∧ T.request q tmo =
        { url := T.api_url.getD []
          params := [(queryKey, q), (idKey, T.dataset_id.getD [])]
          headers := [(authHeaderKey, bearerPre ++ T.api_key.getD [])]
          timeout := tmo }
    ∧ T.searchD tr2 q = T.search tr2 q 30 := by
  refine ⟨?_, rfl, rfl, rfl, ?_, rfl, rfl⟩
  · cases hvc : t.validate_config with
    | mk b msg =>
        rw [hvc] at hv
        cases b with
        | false => simp at hv
        | true => simp [HypermindzRAGSearchTool.search, hvc]
  · cases hvc : T.validate_config with
    | mk b msg =>
        rw [hvc] at hV
        cases b with
        | false => simp at hV
        | true => simp [ExtendedTool.search, hvc]

/-- C2 witness: the fully configured base and extended clients each log
exactly their one built request. -/
theorem search_single_get_request_shape_witness :
    (t0.search trEmpty qStr 30).2 = [t0.request qStr 30]
    ∧ (T0.search trEmpty qStr 30).2 = [T0.request qStr 30] :=
  ⟨(search_single_get_request_shape t0 T0 trEmpty trEmpty qStr 30
      (by decide) (by decide)).1,
   (search_single_get_request_shape t0 T0 trEmpty trEmpty qStr 30
      (by decide) (by decide)).2.2.2.2.1⟩

/-- C8 counterexample: a configuration missing the dataset id (and also
the base URL) gets the base-URL message, which does not contain
`HYPERMINDZ_DATASET_ID`; so the quantifier "for every configuration missing
the dataset id" fails as stated. -/
theorem validate_config_missing_dataset_counterexample :
    (ExtendedTool.mk none (some kStr) none).validate_config
        = (false, baseUrlMissingMsg)
    ∧ ¬ isSub datasetIdVar baseUrlMissingMsg := by
  constructor
  · rfl
  · intro h
    have hc := isSub_count_le 'D' h
    have h1 : datasetIdVar.count 'D' = 3 := by decide
    have h2 : baseUrlMissingMsg.count 'D' = 1 := by decide
    omega

/-- C8 amended: when the base URL and API key are present but the dataset
id is missing or empty, extended-variant validation fails with the message
naming `HYPERMINDZ_DATASET_ID`. -/
theorem validate_config_dataset_message
    (T : ExtendedTool)
    (hb : truthy T.base_url = true)
    (hk : truthy T.api_key = true)
    (hd : truthy T.dataset_id = false) :
    T.validate_config = (false, datasetMissingMsg)
    ∧ isSub datasetIdVar datasetMissingMsg := by
  refine ⟨?_, ⟨"Error: ".data,
    " not provided or environment variable not set".data, by decide⟩⟩
  simp [ExtendedTool.validate_config, hb, hk, hd]

/-- C8 witness: base URL and API key present, dataset id absent. -/
theorem validate_config_dataset_message_witness :
    (ExtendedTool.mk (some uStr) (some kStr) none).validate_config
        = (false, datasetMissingMsg)
    ∧ isSub datasetIdVar datasetMissingMsg :=
  validate_config_dataset_message (ExtendedTool.mk (some uStr) (some kStr) none)
    (by decide) (by decide) (by decide)

/-- C9: the agent-callable wrapper builds one client from the environment
and forwards the query text unchanged to its `search` with the default
timeout, returning the result unchanged. -/
theorem rag_search_wrapper_delegates (env : Str → Option Str)
    (transport : Request → HttpOutcome) (q : Str) :
    hypermindz_rag_search env transport q =
      (HypermindzRAGSearchTool.init none none env).search transport q 30 := rfl

/-- C10: explicit empty-string constructor arguments behave exactly like
omitted ones — the `or` fallback is truthiness-based — and with no
environment variables set such a client fails validation with the message
naming `HYPERMINDZ_RAG_URL`. -/
theorem empty_string_args_fall_back_to_env (env : Str → Option Str) :
    HypermindzRAGSearchTool.init (some []) (some []) env =
      HypermindzRAGSearchTool.init none none env
    ∧ (HypermindzRAGSearchTool.init (some []) (some [])
        (fun _ => none)).validate_config = (false, urlMissingMsg)
    ∧ isSub ragUrlVar urlMissingMsg := by
  refine ⟨?_, by decide, ⟨"Error: ".data,
    " not provided or environment variable not set".data, by decide⟩⟩
  simp [HypermindzRAGSearchTool.init, pyOr]
